import Mathlib

/-!
Shallow embedding of the arsip-app backend (Fastify + Drizzle/Postgres document
archiving API) and proofs about its route handlers.

Each definition is translated from a named source file of the repository:
* `src/backend/src/db/schema.ts` — data model (`users`, `documents` tables)
* `src/backend/src/auth/utils.ts` — password hashing, JWT issue/verify
* `src/backend/src/auth/middleware.ts` — `authenticate`, `checkRole`
* `src/backend/src/validation/auth.ts`, `validation/documents.ts` — zod schemas
* `src/backend/src/utils/file-utils.ts` — `saveFile`, `processOCR`
* `src/backend/src/routes/auth.ts` — register / login handlers
* `src/backend/src/routes/documents.ts` — upload / get / search handlers

JavaScript strings are modelled as Lean `String`, JS `undefined`/`null` as
`Option`, the SQL database as in-memory lists, and the multipart file stream
as a list of bytes.  External-library behaviour that the routes rely on is
modelled at the call sites where the source uses it (bcrypt, jsonwebtoken,
Postgres `LIKE`, Fastify's AJV schema validation) and documented there.
-/

namespace Arsip

/-! ### String primitives (JS `String.prototype.includes`, SQL `LIKE`) -/

/-- `leadsB n h` is true when the list `n` occurs at the head of `h`
(character-by-character comparison). -/
def leadsB : List Char → List Char → Bool
  | [], _ => true
  | _ :: _, [] => false
  | a :: as, b :: bs => a == b && leadsB as bs

/-- `substrB n h` is true when `n` occurs contiguously somewhere in `h`. -/
def substrB (n : List Char) : List Char → Bool
  | [] => n.isEmpty
  | b :: bs => leadsB n (b :: bs) || substrB n bs

/-- Case-sensitive substring containment: models JS `hay.includes(needle)` and
SQL `hay LIKE '%needle%'` for a wildcard-free needle (Postgres `LIKE` is
case-sensitive; `ILIKE` would be the case-insensitive form, and the routes use
drizzle's `like`, i.e. `LIKE`). -/
def strIncludes (hay needle : String) : Bool :=
  substrB needle.data hay.data

/-- JS `String.prototype.toLowerCase`, modelled character-wise. -/
def lowerStr (s : String) : String :=
  ⟨s.data.map Char.toLower⟩

/-- JS `a || b` on strings: the empty string is falsy. -/
def jsOr (a b : String) : String :=
  if a = "" then b else a

/-- Split on a single separator character (the behaviour of JS
`String.prototype.split(sep)` for the one-character separators the code
uses). -/
def splitOnChar (sep : Char) : List Char → List (List Char)
  | [] => [[]]
  | c :: cs =>
    let rest := splitOnChar sep cs
    if c == sep then [] :: rest
    else
      match rest with
      | [] => [[c]]
      | r :: rs => (c :: r) :: rs

/-- JS `s.startsWith(p)`. -/
def jsStartsWith (s p : String) : Bool :=
  leadsB p.data s.data

/-! ### Data model (`src/backend/src/db/schema.ts`)

The `users` table has columns id, email (unique), password (hash), name,
created/updated timestamps; it has **no role column**.  The `documents` table
has id, user_id, title, description (nullable), file_path, file_type,
file_size, ocr_text (nullable), is_public (default false), timestamps.
Timestamps only drive `ORDER BY` clauses and are omitted; all the claims below
are order-independent. -/

structure UserRec where
  id : Nat
  email : String
  password : String
  name : Option String
deriving Repr, DecidableEq

structure DocumentRec where
  id : Nat
  userId : Nat
  title : String
  description : Option String
  filePath : String
  fileType : String
  fileSize : Nat
  ocrText : Option String
  isPublic : Bool
deriving Repr, DecidableEq

/-! ### Response envelope (`src/backend/src/utils/response.ts`)

`responseUtils.error(statusCode, error, message)` builds
`{success: false, statusCode, error, message}`; the named helpers fix the
status and error string (`unauthorized` → 401 "Unauthorized",
`forbidden` → 403 "Forbidden", `notFound` → 404 "Not Found",
`conflict` → 409 "Conflict", `badRequest` → 400 "Bad Request"). -/

structure ApiError where
  statusCode : Nat
  error : String
  message : String
deriving Repr, DecidableEq

/-- One zod issue as rendered by `plugins/zod.ts` (`{field, message, ...}`). -/
structure ValidationIssue where
  field : String
  message : String
deriving Repr, DecidableEq

/-! ### Token service (`src/backend/src/auth/utils.ts`)

`UserPayload` is the exact interface signed into tokens: `{id, email, name}`.
It deliberately has no role member — `generateToken` builds precisely this
object, so tokens minted by this system never carry a role claim. -/

structure UserPayload where
  id : Nat
  email : String
  name : Option String
deriving Repr, DecidableEq

/-- Reading `.role` off a runtime `UserPayload` object: the interface has only
`id`, `email` and `name`, so the JS property access yields `undefined`,
modelled as `none`. -/
def payloadRole (_ : UserPayload) : Option String := none

/-- Model of a token produced by `jwt.sign(payload, secret, {expiresIn: '7d'})`:
the payload together with the signing secret and issue time.  `jwt.verify`
accepts it only when signed with the same secret and not yet expired. -/
structure SignedToken where
  payload : UserPayload
  secret : String
  issuedAt : Nat
deriving Repr, DecidableEq

/-- Seven days in seconds, the `expiresIn: '7d'` argument of `jwt.sign`. -/
def sevenDaysSecs : Nat := 7 * 24 * 60 * 60

/-- `generateToken(user)`: strips everything but `{id, email, name}` into a
`UserPayload` and signs it with the server secret for seven days. -/
def generateToken (secret : String) (now : Nat) (u : UserRec) : SignedToken :=
  { payload := { id := u.id, email := u.email, name := u.name }
    secret := secret
    issuedAt := now }

/-- Model of the external `jwt.verify(token, secret)`: succeeds with the
payload when the token was signed with `secret` and has not expired; a
tampered signature or an expired token makes it fail (the library throws,
which the caller catches). -/
def jwtVerify (secret : String) (now : Nat) (t : SignedToken) : Option UserPayload :=
  if t.secret = secret ∧ now ≤ t.issuedAt + sevenDaysSecs then some t.payload else none

/-- `verifyToken(token)`: wraps `jwt.verify` in try/catch and returns `null`
on any failure — a total function into `Option`, it never propagates an
exception. -/
def verifyToken (secret : String) (now : Nat) (t : SignedToken) : Option UserPayload :=
  jwtVerify secret now t

/-- Model of `bcrypt.hash(password, SALT_ROUNDS)`: an injective one-way
tagging.  Only the contract `verifyPassword p (hashPassword p) = true` and
the failure of mismatched pairs matter to the routes. -/
def hashPassword (p : String) : String := "bcrypt$" ++ p

/-- Model of `bcrypt.compare(password, hash)`. -/
def verifyPassword (p h : String) : Bool := hashPassword p == h

/-! ### Auth middleware (`src/backend/src/auth/middleware.ts`) -/

/-- The bare `{error}`-shaped replies the middleware sends directly
(`reply.status(s).send({error: msg})`). -/
structure SimpleError where
  status : Nat
  error : String
deriving Repr, DecidableEq

/-- `authHeader.split(' ')[1]` after the `Bearer ` shape check. -/
def bearerToken (h : String) : String :=
  ⟨(splitOnChar ' ' h.data).getD 1 []⟩

/-- `authenticate(request, reply)`: rejects a missing or non-`Bearer ` header
with 401 before anything else; then verifies the extracted token (via the
ambient jwt verifier, abstracted as `verify`) and rejects an invalid one with
401.  On success it yields the decoded payload (the code stores it in
`request.user`). -/
def authenticate (verify : String → Option UserPayload) (authHeader : Option String) :
    Except SimpleError UserPayload :=
  match authHeader with
  | none => .error ⟨401, "Unauthorized: No token provided"⟩
  | some h =>
    if jsStartsWith h "Bearer " then
      match verify (bearerToken h) with
      | none => .error ⟨401, "Unauthorized: Invalid token"⟩
      | some u => .ok u
    else
      .error ⟨401, "Unauthorized: No token provided"⟩

/-- A route guarded by the `authenticate` preHandler: the handler body runs
only when `authenticate` succeeds. -/
def runProtected {α : Type} (verify : String → Option UserPayload)
    (handler : UserPayload → α) (onErr : SimpleError → α)
    (authHeader : Option String) : α :=
  match authenticate verify authHeader with
  | .error e => onErr e
  | .ok u => handler u

/-- JS `roles.includes(userRole)` where `userRole` may be `undefined`
(`Array.prototype.includes` never matches `undefined` against strings). -/
def includesOptRole (roles : List String) : Option String → Bool
  | some r => roles.contains r
  | none => false

/-- `checkRole(roles)`: 401 when no user was attached, 403 when the user's
role (read off the payload, `undefined` for tokens this system mints) is not
in `roles`; `none` means the request may proceed. -/
def checkRole (roles : List String) (user : Option UserPayload) : Option SimpleError :=
  match user with
  | none => some ⟨401, "Unauthorized: Authentication required"⟩
  | some u =>
    if includesOptRole roles (payloadRole u) then none
    else some ⟨403, "Forbidden: Insufficient permissions"⟩

/-! ### Request validation (`src/backend/src/validation/auth.ts`,
`src/backend/src/validation/documents.ts`, applied via `plugins/zod.ts`)

Zod runs every check on every field and aggregates all issues; each failed
check contributes one issue.  `plugins/zod.ts` turns a non-empty issue list
into a 400 response carrying the issues. -/

/-- Modelled shape check for zod's `.email()`: a single `@` with non-empty
local and domain parts and no spaces.  (The exact zod regex is finer-grained;
no claim depends on the difference and every concrete email used below is
accepted by both.) -/
def zodEmailOk (s : String) : Bool :=
  match splitOnChar '@' s.data with
  | [l, d] => !l.isEmpty && !d.isEmpty && !(strIncludes s " ")
  | _ => false

/-- Issues raised by `registerSchema.parse` (`validation/auth.ts`):
email nonempty + email shape, password nonempty + min 6, name nonempty +
min 2 (the optional `role` field defaults to `'user'` and raises nothing for
absent input). -/
def registerIssues (email password name : String) : List ValidationIssue :=
  (if email.length = 0 then [⟨"email", "Email is required"⟩] else [])
  ++ (if !zodEmailOk email then [⟨"email", "Invalid email format"⟩] else [])
  ++ (if password.length = 0 then [⟨"password", "Password is required"⟩] else [])
  ++ (if password.length < 6 then
        [⟨"password", "Password must be at least 6 characters"⟩] else [])
  ++ (if name.length = 0 then [⟨"name", "Name is required"⟩] else [])
  ++ (if name.length < 2 then [⟨"name", "Name must be at least 2 characters"⟩] else [])

/-- Issues raised by `loginSchema.parse` (`validation/auth.ts`). -/
def loginIssues (email password : String) : List ValidationIssue :=
  (if email.length = 0 then [⟨"email", "Email is required"⟩] else [])
  ++ (if !zodEmailOk email then [⟨"email", "Invalid email format"⟩] else [])
  ++ (if password.length = 0 then [⟨"password", "Password is required"⟩] else [])

/-- Issues raised by `documentUploadSchema.parse` (`validation/documents.ts`)
on the `{title, description, isPublic}` object the upload handler builds:
title nonempty + min 2 + max 255, description max 1000 (the handler always
passes a string for description, and a boolean literal for isPublic, so the
type-level checks cannot fire). -/
def documentUploadIssues (title descr : String) : List ValidationIssue :=
  (if title.length = 0 then [⟨"title", "Document title is required"⟩] else [])
  ++ (if title.length < 2 then
        [⟨"title", "Document title must be at least 2 characters long"⟩] else [])
  ++ (if title.length > 255 then
        [⟨"title", "Document title cannot exceed 255 characters"⟩] else [])
  ++ (if descr.length > 1000 then
        [⟨"description", "Document description cannot exceed 1000 characters"⟩] else [])

/-- The validated output of `documentUploadSchema.parse`. -/
structure DocumentUploadParsed where
  title : String
  description : String
  isPublic : Bool
deriving Repr, DecidableEq

/-- `documentUploadSchema.parse({title, description, isPublic})`: throws the
aggregated issues (modelled as `Except.error`) or returns the validated data
unchanged. -/
def documentUploadParse (title descr : String) (isPublic : Bool) :
    Except (List ValidationIssue) DocumentUploadParsed :=
  let issues := documentUploadIssues title descr
  if issues.isEmpty then .ok ⟨title, descr, isPublic⟩ else .error issues

/-! ### Server state

The two Postgres tables plus the uploads directory, with the serial-id
counters the database maintains. -/

structure ServerState where
  users : List UserRec
  documents : List DocumentRec
  /-- The file store: stored name ↦ stored bytes (`uploads/` directory). -/
  storedFiles : List (String × List Nat)
  nextUserId : Nat
  nextDocId : Nat
deriving Repr, DecidableEq

/-! ### File store (`src/backend/src/utils/file-utils.ts`) -/

/-- `path.extname(originalFilename)`: the final dot-extension including the
dot, empty when the name has no dot. -/
def extname (s : String) : String :=
  match splitOnChar '.' s.data with
  | [] => ""
  | [_] => ""
  | parts => "." ++ (⟨parts.getLastD []⟩ : String)

/-- One part of the multipart request as `@fastify/multipart` hands it to the
handler: the client filename, mimetype, and the streamed bytes. -/
structure FilePart where
  filename : String
  mimetype : String
  content : List Nat
deriving Repr, DecidableEq

/-- `saveFile(file, originalFilename)`: names the file
`<random hex id><original extension>` (the crypto-random id is passed in as
`fileId`, the randomness oracle), streams the bytes into the uploads
directory, and reports the size found on disk. -/
def saveFile (st : ServerState) (fileId : String) (f : FilePart) :
    (String × Nat) × ServerState :=
  let fileName := fileId ++ extname f.filename
  ((fileName, f.content.length),
   { st with storedFiles := st.storedFiles ++ [(fileName, f.content)] })

/-- `processOCR(filePath)`: the placeholder OCR step; always returns the
fixed sentence built from the file's base name (the stored name contains no
directory part, so `path.basename` is the identity here). -/
def processOCR (fileName : String) : String :=
  "OCR text would be extracted from " ++ fileName ++ " in a real implementation."

/-! ### Auth routes (`src/backend/src/routes/auth.ts`) -/

/-- The password-free user object the auth routes return. -/
structure PublicUser where
  id : Nat
  email : String
  name : Option String
deriving Repr, DecidableEq

inductive RegisterResult where
  /-- 201 `{user, token}`. -/
  | createdUser (user : PublicUser) (token : SignedToken)
  /-- 400 from the `zodValidation(registerSchema)` preHandler. -/
  | validationFailed (issues : List ValidationIssue)
  /-- 409 `responseUtils.conflict(...)`. -/
  | conflict (e : ApiError)
deriving Repr, DecidableEq

/-- `db.query.users.findFirst({where: eq(users.email, email)})`. -/
def findUserByEmail (users : List UserRec) (email : String) : Option UserRec :=
  users.find? (fun u => u.email == email)

/-- The `POST /auth/register` pipeline: zod validation preHandler, duplicate
email check (409), then insert `{email, password: hash, name: name || null}`
and answer 201 with the new user and a fresh token. -/
def registerHandler (secret : String) (now : Nat) (st : ServerState)
    (email password name : String) : RegisterResult × ServerState :=
  let issues := registerIssues email password name
  if !issues.isEmpty then (.validationFailed issues, st)
  else
    match findUserByEmail st.users email with
    | some _ => (.conflict ⟨409, "Conflict", "User with this email already exists"⟩, st)
    | none =>
      let newUser : UserRec :=
        { id := st.nextUserId
          email := email
          password := hashPassword password
          name := if name = "" then none else some name }
      (.createdUser ⟨newUser.id, newUser.email, newUser.name⟩
        (generateToken secret now newUser),
       { st with users := st.users ++ [newUser], nextUserId := st.nextUserId + 1 })

inductive LoginResult where
  /-- 200 `{user, token}`. -/
  | ok (user : PublicUser) (token : SignedToken)
  /-- 400 from the `zodValidation(loginSchema)` preHandler. -/
  | validationFailed (issues : List ValidationIssue)
  /-- 401 `responseUtils.unauthorized(...)`. -/
  | unauthorizedRes (e : ApiError)
deriving Repr, DecidableEq

/-- The `POST /auth/login` pipeline: zod validation preHandler, user lookup by
email, bcrypt comparison — with the **same** 401 response
(`responseUtils.unauthorized('Invalid email or password')`) for both the
unknown-email and wrong-password branches. -/
def loginHandler (secret : String) (now : Nat) (st : ServerState)
    (email password : String) : LoginResult :=
  let issues := loginIssues email password
  if !issues.isEmpty then .validationFailed issues
  else
    match findUserByEmail st.users email with
    | none => .unauthorizedRes ⟨401, "Unauthorized", "Invalid email or password"⟩
    | some u =>
      if !verifyPassword password u.password then
        .unauthorizedRes ⟨401, "Unauthorized", "Invalid email or password"⟩
      else
        .ok ⟨u.id, u.email, u.name⟩ (generateToken secret now u)

/-! ### Document routes (`src/backend/src/routes/documents.ts`) -/

/-- A multipart upload request as the handler sees it after
`await request.file()`: possibly no file part at all, and the text fields
(`getFieldValue` turns a missing field into `''`).  `isPublicField` is a
client-supplied value the handler never reads — `isPublic` is hardcoded
`false` when the handler builds the object it validates and inserts. -/
structure UploadRequest where
  file : Option FilePart
  titleField : Option String
  descriptionField : Option String
  isPublicField : Option Bool
deriving Repr, DecidableEq

/-- `getFieldValue(data, fieldName)` (`src/backend/src/types/multipart.ts`):
the field's string value, or `''` when the field is absent. -/
def getFieldValue (req : UploadRequest) (fieldName : String) : String :=
  if fieldName = "title" then (req.titleField).getD ""
  else if fieldName = "description" then (req.descriptionField).getD ""
  else ""

inductive UploadResult where
  /-- 201 `responseUtils.created({document}, ...)`. -/
  | created (doc : DocumentRec)
  /-- 400 `responseUtils.badRequest(msg, details?)`; `details` carries the zod
  issues in the validation-failure branch and nothing in the no-file branch. -/
  | badRequest (msg : String) (details : Option (List ValidationIssue))
deriving Repr, DecidableEq

/-- The `POST /api/upload` handler body (after the `authenticate` preHandler):

1. no file part → 400 `'No file uploaded'`;
2. `saveFile` writes the streamed bytes to the uploads directory **first**;
3. the title falls back to the client filename (`getFieldValue(...) ||
   data.filename`), the description to `''`;
4. `processOCR` runs;
5. only then does `documentUploadSchema.parse({title, description,
   isPublic: false})` run — a zod failure answers 400 `'Invalid document
   data'` with the saved file left in place and no row inserted;
6. on success the row is inserted with `description: validated.description ||
   null` and `isPublic: validated.isPublic` (i.e. `false`). -/
def uploadHandler (st : ServerState) (userId : Nat) (fileId : String)
    (req : UploadRequest) : UploadResult × ServerState :=
  match req.file with
  | none => (.badRequest "No file uploaded" none, st)
  | some f =>
    let saved := saveFile st fileId f
    let fileName := saved.1.1
    let fileSize := saved.1.2
    let st1 := saved.2
    let title := jsOr (getFieldValue req "title") f.filename
    let descr := jsOr (getFieldValue req "description") ""
    let ocrText := processOCR fileName
    match documentUploadParse title descr false with
    | .error issues => (.badRequest "Invalid document data" (some issues), st1)
    | .ok validated =>
      let newDoc : DocumentRec :=
        { id := st1.nextDocId
          userId := userId
          title := validated.title
          description := if validated.description = "" then none
                         else some validated.description
          filePath := fileName
          fileType := f.mimetype
          fileSize := fileSize
          ocrText := some ocrText
          isPublic := validated.isPublic }
      (.created newDoc,
       { st1 with documents := st1.documents ++ [newDoc]
                  nextDocId := st1.nextDocId + 1 })

inductive GetDocResult where
  /-- 200 `{document: {...doc, fileUrl}}`. -/
  | ok (doc : DocumentRec) (fileUrl : String)
  /-- 400: the id parameter failed the route's `params` schema. -/
  | badRequestR (e : ApiError)
  /-- 401 `responseUtils.unauthorized(...)`. -/
  | unauthorizedR (e : ApiError)
  /-- 403 `responseUtils.forbidden(...)`. -/
  | forbiddenR (e : ApiError)
  /-- 404 `responseUtils.notFound(...)`. -/
  | notFoundR (e : ApiError)
deriving Repr, DecidableEq

/-- The HTTP status of a `GET /api/documents/:id` outcome. -/
def statusOfGet : GetDocResult → Nat
  | .ok _ _ => 200
  | .badRequestR e => e.statusCode
  | .unauthorizedR e => e.statusCode
  | .forbiddenR e => e.statusCode
  | .notFoundR e => e.statusCode

/-- JS `userRole !== 'admin'` where the role may be `undefined` (it always is
for tokens this system mints, since `UserPayload` has no role member). -/
def jsNeqAdmin : Option String → Bool
  | none => true
  | some r => r != "admin"

/-- The `GET /api/documents/:id` handler body (after `authenticate`), taking
the already-coerced numeric id: `!user || !user.id` → 401; `findFirst` by id →
404 when absent; then the access check — a non-owner of a private document is
refused with 403 unless their role is `'admin'`; otherwise 200 with
`fileUrl = baseUrl + '/uploads/' + filePath`. -/
def getDocumentHandler (baseUrl : String) (st : ServerState) (user : UserPayload)
    (documentId : Int) : GetDocResult :=
  if user.id == 0 then
    .unauthorizedR ⟨401, "Unauthorized", "Authentication required"⟩
  else
    match st.documents.find? (fun d => (d.id : Int) == documentId) with
    | none => .notFoundR ⟨404, "Not Found", "Document not found"⟩
    | some document =>
      if ((document.userId != user.id) && !document.isPublic)
          && jsNeqAdmin (payloadRole user) then
        .forbiddenR ⟨403, "Forbidden",
          "You do not have permission to access this document"⟩
      else
        .ok document (baseUrl ++ "/uploads/" ++ document.filePath)

/-- Model of the string→number coercion Fastify's AJV applies to a path
parameter declared `{type: 'number'}` (the route's `params` schema in
`documents.ts`): an optionally signed decimal numeral with optional fraction
part coerces; anything else fails schema validation.  (JS number coercion
also admits exponent/hex/whitespace forms; none of the spec's examples
exercise them.) -/
def numeralB (l : List Char) : Bool :=
  !l.isEmpty && l.all (fun c => c.isDigit)

def intFracOk (l : List Char) : Bool :=
  let ds := l.takeWhile (fun c => c.isDigit)
  let rest := l.dropWhile (fun c => c.isDigit)
  !ds.isEmpty &&
    (rest.isEmpty ||
      (match rest with
       | '.' :: r => numeralB r
       | _ => false))

def jsNumberOk (s : String) : Bool :=
  match s.data with
  | '-' :: r => intFracOk r
  | l => intFracOk l

/-- Digit-list to number, most significant first. -/
def natOfDigits (l : List Char) : Nat :=
  l.foldl (fun a c => a * 10 + (c.toNat - 48)) 0

/-- JS `parseInt` on a string that passed `jsNumberOk`: the leading integer
part (fractions are truncated, e.g. `parseInt('12.5') = 12`). -/
def parseIntJS (s : String) : Int :=
  match s.data with
  | '-' :: r => - (natOfDigits (r.takeWhile (fun c => c.isDigit)) : Int)
  | l => (natOfDigits (l.takeWhile (fun c => c.isDigit)) : Int)

/-- The full `GET /api/documents/:id` route: the declared `params` schema
`{id: {type: 'number'}}` makes Fastify reject a non-numeric id with 400
before the handler runs (the handler itself calls `parseInt` with no NaN
guard — it never sees a non-numeric id). -/
def getDocumentRoute (baseUrl : String) (st : ServerState) (user : UserPayload)
    (idParam : String) : GetDocResult :=
  if jsNumberOk idParam then
    getDocumentHandler baseUrl st user (parseIntJS idParam)
  else
    .badRequestR ⟨400, "Bad Request", "params/id must be number"⟩

/-! ### Search route (`GET /api/search` in `documents.ts`) -/

/-- `like(column, pattern)` on a nullable column: SQL `NULL LIKE p` is not
true, and Postgres `LIKE` is case-sensitive. -/
def sqlLikeN (col : Option String) (q : String) : Bool :=
  match col with
  | none => false
  | some s => strIncludes s q

/-- The WHERE clause of the search query:
`(userId = uid OR isPublic) AND (title LIKE %q% OR description LIKE %q% OR
ocrText LIKE %q%)`. -/
def searchWhere (uid : Nat) (q : String) (d : DocumentRec) : Bool :=
  (d.userId == uid || d.isPublic)
  && (strIncludes d.title q || sqlLikeN d.description q || sqlLikeN d.ocrText q)

/-- The relevance tag computed per result: the first of title / description /
OCR text whose lowercase form contains the lowercase query
(`doc.x?.toLowerCase().includes(searchQuery.toLowerCase())`), defaulting to
`'Unknown match'`. -/
def relevanceOf (q : String) (d : DocumentRec) : String :=
  let lq := lowerStr q
  if strIncludes (lowerStr d.title) lq then "Title match"
  else if sqlLikeN (d.description.map lowerStr) lq then "Description match"
  else if sqlLikeN (d.ocrText.map lowerStr) lq then "Content match (OCR)"
  else "Unknown match"

/-- One transformed search result (`id, title, description, fileUrl,
fileType, fileSize, relevance, createdAt`; the timestamp is omitted as
above). -/
structure SearchResult where
  id : Nat
  title : String
  description : Option String
  fileUrl : String
  fileType : String
  fileSize : Nat
  relevance : String
deriving Repr, DecidableEq

/-- The transform applied to each matching document. -/
def toSearchResult (baseUrl : String) (q : String) (d : DocumentRec) : SearchResult :=
  { id := d.id
    title := d.title
    description := d.description
    fileUrl := baseUrl ++ "/uploads/" ++ d.filePath
    fileType := d.fileType
    fileSize := d.fileSize
    relevance := relevanceOf q d }

/-- The `GET /api/search` handler (after `authenticate` and the
`documentSearchSchema` preHandler, which defaults a missing query to `''`):
`!user || !user.id` → 401, otherwise the WHERE-filtered documents mapped
through the transform.  (`ORDER BY createdAt DESC` only permutes the list and
is omitted; every property proved below is order-independent.) -/
def searchDocuments (baseUrl : String) (st : ServerState) (user : UserPayload)
    (queryParam : Option String) : Except ApiError (List SearchResult) :=
  let searchQuery := jsOr (queryParam.getD "") ""
  if user.id == 0 then
    .error ⟨401, "Unauthorized", "Authentication required"⟩
  else
    .ok (((st.documents.filter (searchWhere user.id searchQuery)).map
      (toSearchResult baseUrl searchQuery)))

/-- Modelled from the spec: the membership predicate C2 claims for
SearchDocuments — requester-visible (own OR public) and **case-insensitive**
containment of the query in title, description, or extracted text.  Kept
separate from `searchWhere` (the code's predicate) for comparison. -/
def specSearchMatch (uid : Nat) (q : String) (d : DocumentRec) : Bool :=
  (d.userId == uid || d.isPublic)
  && (strIncludes (lowerStr d.title) (lowerStr q)
      || sqlLikeN (d.description.map lowerStr) (lowerStr q)
      || sqlLikeN (d.ocrText.map lowerStr) (lowerStr q))

/-! ### The API surface as a transition system (for the privacy invariant)

Only two operations write to the store: register inserts a user, upload
inserts a document (and a file).  Every other route in `routes/auth.ts` and
`routes/documents.ts` only reads. -/

inductive ApiOp where
  | register (email password name : String)
  | login (email password : String)
  | getProfile (uid : Nat)
  | upload (uid : Nat) (fileId : String) (req : UploadRequest)
  | listDocuments (uid : Nat)
  | getDocument (uid : Nat) (idParam : String)
  | search (uid : Nat) (query : Option String)
  | adminListDocuments (uid : Nat)
deriving Repr, DecidableEq

/-- The state transition of one API call (read-only routes leave the state
unchanged). -/
def applyOp (secret : String) (now : Nat) (st : ServerState) : ApiOp → ServerState
  | .register e p n => (registerHandler secret now st e p n).2
  | .upload uid fileId req => (uploadHandler st uid fileId req).2
  | _ => st

/-! ### Sample inputs used by concrete witnesses and counterexamples -/

/-- A registered user (id 1) with a bcrypt-hashed password. -/
def userAlice : UserRec := ⟨1, "alice@mail.co", hashPassword "secret1", some "Alice"⟩

/-- The store after Alice registered. -/
def stUsers : ServerState := ⟨[userAlice], [], [], 2, 1⟩

/-- A private document owned by user 1 whose title contains "Invoice" with a
capital I. -/
def docInvoice : DocumentRec :=
  ⟨1, 1, "Invoice", none, "f.png", "image/png", 1, none, false⟩

/-- A private document owned by user 1 whose title contains "invoice" in
lowercase. -/
def docInvoiceLower : DocumentRec :=
  ⟨2, 1, "invoice 2024", none, "g.png", "image/png", 1, none, false⟩

/-- A store holding only `docInvoice`. -/
def stSearch : ServerState := ⟨[], [docInvoice], [], 1, 2⟩

/-- A store holding only `docInvoiceLower`. -/
def stSearchLower : ServerState := ⟨[], [docInvoiceLower], [], 1, 3⟩

/-- The token payload of user 1. -/
def payloadOne : UserPayload := ⟨1, "alice@mail.co", none⟩

/-- The token payload of a second user, who owns nothing. -/
def payloadTwo : UserPayload := ⟨2, "bob@mail.co", none⟩

/-- A fresh empty store. -/
def stEmpty : ServerState := ⟨[], [], [], 1, 1⟩

/-- An upload with a file part whose `title` field is the empty string. -/
def reqEmptyTitle : UploadRequest :=
  ⟨some ⟨"doc.pdf", "application/pdf", [7, 7]⟩, some "", some "", some true⟩

/-- An upload with a file part and a one-character title (fails the min-2
rule). -/
def reqShortTitle : UploadRequest :=
  ⟨some ⟨"doc.pdf", "application/pdf", [7]⟩, some "A", none, none⟩

/-- An upload request with no file part. -/
def reqNoFile : UploadRequest := ⟨none, some "My Doc", none, none⟩

/-- An upload whose client asks `isPublic: true` (a field the handler never
reads). -/
def reqPublicTrue : UploadRequest :=
  ⟨some ⟨"a.png", "image/png", [1, 2, 3]⟩, some "Vacation scan", none, some true⟩

/-- The document `reqPublicTrue` creates on an empty store (private despite
the client's `isPublic: true`). -/
def docVacation : DocumentRec :=
  ⟨1, 1, "Vacation scan", none, "f9.png", "image/png", 3,
    some "OCR text would be extracted from f9.png in a real implementation.", false⟩

/-- The store after `reqPublicTrue` was uploaded into `stEmpty`. -/
def stAfterVacation : ServerState :=
  ⟨[], [docVacation], [("f9.png", [1, 2, 3])], 1, 2⟩

/-- A short API trace: a registration, an upload asking to be public, and a
read. -/
def opsSample : List ApiOp :=
  [.register "carol@mail.co" "secret33" "Carol",
   .upload 1 "f9" reqPublicTrue,
   .getDocument 1 "1"]

end Arsip

namespace Arsip

/-! ## Theorems -/

/-! ### Shared helper lemmas -/

theorem leadsB_map_toLower {n h : List Char} (hl : leadsB n h = true) :
    leadsB (n.map Char.toLower) (h.map Char.toLower) = true := by
  induction n generalizing h with
  | nil => rfl
  | cons a as ih =>
    cases h with
    | nil => simp [leadsB] at hl
    | cons b bs =>
      simp only [leadsB, Bool.and_eq_true, beq_iff_eq] at hl
      simp only [List.map_cons, leadsB, Bool.and_eq_true, beq_iff_eq]
      exact ⟨by rw [hl.1], ih hl.2⟩

theorem substrB_map_toLower {n h : List Char} (hs : substrB n h = true) :
    substrB (n.map Char.toLower) (h.map Char.toLower) = true := by
  induction h with
  | nil =>
    simp only [substrB, List.isEmpty_iff] at hs
    simp [hs, substrB]
  | cons b bs ih =>
    simp only [substrB, Bool.or_eq_true] at hs
    rcases hs with hs | hs
    · simp only [List.map_cons, substrB, Bool.or_eq_true]
      exact Or.inl (by simpa using leadsB_map_toLower hs)
    · simp only [List.map_cons, substrB, Bool.or_eq_true]
      exact Or.inr (ih hs)

/-- Case-sensitive containment implies case-insensitive containment. -/
theorem strIncludes_lower {hay q : String} (h : strIncludes hay q = true) :
    strIncludes (lowerStr hay) (lowerStr q) = true := by
  simpa [strIncludes, lowerStr] using substrB_map_toLower h

/-! ### C5 -/

/-- **C5.** A request id that is not a numeric string is answered 400 by the
route (the declared `params` schema `{id: {type: 'number'}}` fails before the
handler's `parseInt` runs), never 500 and never 404. -/
theorem getDocument_nonnumeric_id_badRequest (baseUrl : String) (st : ServerState)
    (user : UserPayload) (idParam : String)
    (h : jsNumberOk idParam = false) :
    getDocumentRoute baseUrl st user idParam
      = .badRequestR ⟨400, "Bad Request", "params/id must be number"⟩
    ∧ statusOfGet (getDocumentRoute baseUrl st user idParam) = 400
    ∧ statusOfGet (getDocumentRoute baseUrl st user idParam) ≠ 500
    ∧ statusOfGet (getDocumentRoute baseUrl st user idParam) ≠ 404 := by
  have h1 : getDocumentRoute baseUrl st user idParam
      = .badRequestR ⟨400, "Bad Request", "params/id must be number"⟩ := by
    simp [getDocumentRoute, h]
  refine ⟨h1, ?_, ?_, ?_⟩ <;> rw [h1] <;> simp [statusOfGet]

/-- Witness for C5 at the spec's own example id `"abc"`. -/
theorem getDocument_nonnumeric_id_badRequest_witness :
    getDocumentRoute "http://localhost:3000" stSearch payloadOne "abc"
      = .badRequestR ⟨400, "Bad Request", "params/id must be number"⟩
    ∧ statusOfGet (getDocumentRoute "http://localhost:3000" stSearch payloadOne "abc") = 400
    ∧ statusOfGet (getDocumentRoute "http://localhost:3000" stSearch payloadOne "abc") ≠ 500
    ∧ statusOfGet (getDocumentRoute "http://localhost:3000" stSearch payloadOne "abc") ≠ 404 :=
  getDocument_nonnumeric_id_badRequest "http://localhost:3000" stSearch payloadOne "abc"
    (by decide)

/-! ### C6 -/

/-- **C6.** A token minted by this system's register/login (`generateToken`)
carries only `{id, email, name}`; it verifies back to exactly that payload,
and `checkRole(['admin'])` answers 403 for **every** `UserPayload` — the
interface (like the `users` table) has no role member, so the role read off
such a payload is `undefined` and `roles.includes(undefined)` never holds. -/
theorem minted_tokens_never_admin (secret : String) (issuedAt now : Nat) (u : UserRec)
    (hfresh : now ≤ issuedAt + sevenDaysSecs) :
    verifyToken secret now (generateToken secret issuedAt u)
      = some ⟨u.id, u.email, u.name⟩
    ∧ ∀ p : UserPayload, checkRole ["admin"] (some p)
      = some ⟨403, "Forbidden: Insufficient permissions"⟩ := by
  constructor
  · simp [verifyToken, jwtVerify, generateToken, hfresh]
  · intro p
    simp [checkRole, includesOptRole, payloadRole]

/-- Witness for C6: Alice's freshly minted token is valid yet admin-gated
routes refuse it. -/
theorem minted_tokens_never_admin_witness :
    verifyToken "jwtsecret" 100 (generateToken "jwtsecret" 50 userAlice)
      = some ⟨userAlice.id, userAlice.email, userAlice.name⟩
    ∧ ∀ p : UserPayload, checkRole ["admin"] (some p)
      = some ⟨403, "Forbidden: Insufficient permissions"⟩ :=
  minted_tokens_never_admin "jwtsecret" 50 100 userAlice (by decide)

/-! ### C7 -/

/-- **C7.** A missing or non-`Bearer` Authorization header is rejected with
401 by `authenticate` before any handler logic runs (whatever the handler,
the guarded route's outcome is the 401 error), and a tampered or expired
token makes `verifyToken` return `none` — it is a total function and never
propagates an exception. -/
theorem auth_gate_and_token_safety {α : Type}
    (verify : String → Option UserPayload) (authHeader : Option String)
    (handler : UserPayload → α) (onErr : SimpleError → α)
    (hmal : authHeader = none
      ∨ ∀ s, authHeader = some s → jsStartsWith s "Bearer " = false)
    (secret : String) (now : Nat) (t : SignedToken)
    (hbad : t.secret ≠ secret ∨ t.issuedAt + sevenDaysSecs < now) :
    authenticate verify authHeader = .error ⟨401, "Unauthorized: No token provided"⟩
    ∧ runProtected verify handler onErr authHeader
      = onErr ⟨401, "Unauthorized: No token provided"⟩
    ∧ verifyToken secret now t = none := by
  have h1 : authenticate verify authHeader
      = .error ⟨401, "Unauthorized: No token provided"⟩ := by
    rcases hmal with h | h
    · rw [h]; rfl
    · cases authHeader with
      | none => rfl
      | some s =>
        have hs := h s rfl
        simp [authenticate, hs]
  refine ⟨h1, ?_, ?_⟩
  · simp [runProtected, h1]
  · rcases hbad with h | h
    · simp [verifyToken, jwtVerify, h]
    · have h2 : ¬ now ≤ t.issuedAt + sevenDaysSecs := by omega
      simp [verifyToken, jwtVerify, h2]

/-- Witness for C7: a `Token ...` header (not `Bearer`) and an expired
token. -/
theorem auth_gate_and_token_safety_witness :
    authenticate (fun _ => some payloadOne) (some "Token abc")
      = .error ⟨401, "Unauthorized: No token provided"⟩
    ∧ runProtected (fun _ => some payloadOne) (fun p => p.id) (fun e => e.status)
        (some "Token abc") = 401
    ∧ verifyToken "jwtsecret" 999999999 ⟨payloadOne, "jwtsecret", 0⟩ = none := by
  obtain ⟨h1, h2, h3⟩ := auth_gate_and_token_safety
    (fun _ => some payloadOne) (some "Token abc") (fun p => p.id) (fun e => e.status)
    (Or.inr (fun s hs => by injection hs with h; subst h; decide))
    "jwtsecret" 999999999 (⟨payloadOne, "jwtsecret", 0⟩ : SignedToken)
    (Or.inr (by decide))
  exact ⟨h1, h2, h3⟩

/-! ### C8 -/

/-- **C8.** The login failure responses for an unknown email and for a known
email with a wrong password are one and the same value — status 401 and the
message `'Invalid email or password'` — so an observer cannot tell the two
causes apart. -/
theorem login_failure_indistinguishable (secret : String) (now : Nat)
    (st : ServerState) (e1 p1 e2 p2 : String) (u : UserRec)
    (hv1 : loginIssues e1 p1 = []) (hv2 : loginIssues e2 p2 = [])
    (h1 : findUserByEmail st.users e1 = none)
    (h2 : findUserByEmail st.users e2 = some u)
    (hp : verifyPassword p2 u.password = false) :
    loginHandler secret now st e1 p1 = loginHandler secret now st e2 p2
    ∧ loginHandler secret now st e1 p1
      = .unauthorizedRes ⟨401, "Unauthorized", "Invalid email or password"⟩ := by
  have ha : loginHandler secret now st e1 p1
      = .unauthorizedRes ⟨401, "Unauthorized", "Invalid email or password"⟩ := by
    simp [loginHandler, hv1, h1]
  have hb : loginHandler secret now st e2 p2
      = .unauthorizedRes ⟨401, "Unauthorized", "Invalid email or password"⟩ := by
    simp [loginHandler, hv2, h2, hp]
  exact ⟨ha.trans hb.symm, ha⟩

/-- Witness for C8: unknown `nobody@mail.co` vs Alice with a wrong
password. -/
theorem login_failure_indistinguishable_witness :
    loginHandler "jwtsecret" 0 stUsers "nobody@mail.co" "secret1"
      = loginHandler "jwtsecret" 0 stUsers "alice@mail.co" "wrongpw"
    ∧ loginHandler "jwtsecret" 0 stUsers "nobody@mail.co" "secret1"
      = .unauthorizedRes ⟨401, "Unauthorized", "Invalid email or password"⟩ :=
  login_failure_indistinguishable "jwtsecret" 0 stUsers
    "nobody@mail.co" "secret1" "alice@mail.co" "wrongpw" userAlice
    (by decide) (by decide) (by decide) (by decide) (by decide)

/-! ### C9 -/

/-- **C9.** When a user with the given email already exists, a (well-formed)
second registration answers 409 Conflict and leaves the store — in
particular the first user's record — untouched. -/
theorem register_duplicate_conflict (secret : String) (now : Nat)
    (st : ServerState) (email password name : String) (u : UserRec)
    (hu : findUserByEmail st.users email = some u)
    (hvalid : registerIssues email password name = []) :
    registerHandler secret now st email password name
      = (.conflict ⟨409, "Conflict", "User with this email already exists"⟩, st)
    ∧ u ∈ st.users := by
  refine ⟨?_, List.mem_of_find?_eq_some hu⟩
  simp [registerHandler, hvalid, hu]

/-! ### C1 -/

/-- **C1.** For an existing document, the `GET /api/documents/:id` handler
answers 200 with the document (and derived fileUrl) exactly when the
requester owns it or it is public; in every other case it answers 403
Forbidden.  (Every requester this system authenticates is non-admin: minted
payloads carry no role, see C6.) -/
theorem getDocument_access_iff (baseUrl : String) (st : ServerState)
    (user : UserPayload) (n : Int) (doc : DocumentRec)
    (h0 : user.id ≠ 0)
    (hfind : st.documents.find? (fun d => (d.id : Int) == n) = some doc) :
    (getDocumentHandler baseUrl st user n
        = .ok doc (baseUrl ++ "/uploads/" ++ doc.filePath)
      ↔ doc.userId = user.id ∨ doc.isPublic = true)
    ∧ (doc.userId ≠ user.id ∧ doc.isPublic = false →
        getDocumentHandler baseUrl st user n
          = .forbiddenR ⟨403, "Forbidden",
              "You do not have permission to access this document"⟩) := by
  have h0' : (user.id == 0) = false := beq_eq_false_iff_ne.mpr h0
  unfold getDocumentHandler
  rw [hfind, h0']
  by_cases h1 : doc.userId = user.id <;> by_cases h2 : doc.isPublic = true <;>
    simp [h1, h2, payloadRole, jsNeqAdmin]

/-- Witness for C1: user 2 requesting user 1's private document is refused
with 403. -/
theorem getDocument_access_iff_witness :
    getDocumentHandler "http://localhost:3000" stSearch payloadTwo 1
      = .forbiddenR ⟨403, "Forbidden",
          "You do not have permission to access this document"⟩ :=
  (getDocument_access_iff "http://localhost:3000" stSearch payloadTwo 1 docInvoice
    (by decide) (by decide)).2 (by decide)

/-! ### C3 -/

/-- **C3 counterexample.** The claim — a validation failure is reported
before any persistence is touched — is false at a concrete input: an upload
with a one-character title is answered with the validation failure, yet the
uploaded file sits in the file store (the handler calls `saveFile` before
`documentUploadSchema.parse`). -/
theorem upload_validation_persists_file_refuted :
    (uploadHandler stEmpty 1 "f1" reqShortTitle).1
      = .badRequest "Invalid document data"
          (some [⟨"title", "Document title must be at least 2 characters long"⟩])
    ∧ (uploadHandler stEmpty 1 "f1" reqShortTitle).2.storedFiles
      ≠ stEmpty.storedFiles := by
  exact ⟨by decide, by decide⟩

/-- **C3 amended.** When upload-field validation fails, the metadata row is
indeed never inserted and the failure is reported — but the uploaded file has
already been written to the file store before validation runs. -/
theorem upload_validation_no_metadata_but_file_saved
    (st : ServerState) (uid : Nat) (fileId : String) (req : UploadRequest)
    (f : FilePart) (hf : req.file = some f)
    (hbad : documentUploadIssues (jsOr ((req.titleField).getD "") f.filename)
        (jsOr ((req.descriptionField).getD "") "") ≠ []) :
    (uploadHandler st uid fileId req).1
      = .badRequest "Invalid document data"
          (some (documentUploadIssues (jsOr ((req.titleField).getD "") f.filename)
            (jsOr ((req.descriptionField).getD "") "")))
    ∧ (uploadHandler st uid fileId req).2.documents = st.documents
    ∧ (uploadHandler st uid fileId req).2.storedFiles
      = st.storedFiles ++ [(fileId ++ extname f.filename, f.content)] := by
  have hbad' : (documentUploadIssues (jsOr ((req.titleField).getD "") f.filename)
      (jsOr ((req.descriptionField).getD "") "")).isEmpty = false := by
    simpa [List.isEmpty_iff] using hbad
  simp [uploadHandler, hf, getFieldValue, documentUploadParse, hbad', saveFile]

/-- Witness for C3 (amended): concrete short-title upload — 400, no row, the
file written. -/
theorem upload_validation_no_metadata_but_file_saved_witness :
    (uploadHandler stEmpty 1 "f1" reqShortTitle).1
      = .badRequest "Invalid document data"
          (some (documentUploadIssues
            (jsOr ((reqShortTitle.titleField).getD "") "doc.pdf")
            (jsOr ((reqShortTitle.descriptionField).getD "") "")))
    ∧ (uploadHandler stEmpty 1 "f1" reqShortTitle).2.documents = stEmpty.documents
    ∧ (uploadHandler stEmpty 1 "f1" reqShortTitle).2.storedFiles
      = stEmpty.storedFiles ++ [("f1" ++ extname "doc.pdf", [7])] :=
  upload_validation_no_metadata_but_file_saved stEmpty 1 "f1" reqShortTitle
    ⟨"doc.pdf", "application/pdf", [7]⟩ (by decide) (by decide)

/-! ### C4 -/

/-- **C4** (code bug, evaluated at the failing input).  An upload whose
`title` field is the empty string does **not** produce a ValidationFailed
response: the handler's `getFieldValue(data, 'title') || data.filename`
falls back to the client filename, validation passes, and the call answers
201 with the filename as title — against the claim and the repository's own
`upload-test-guide.md` (Test 5: empty title → 400 "Document title is
required").  The second half of the claim holds: an upload with no file part
is answered 400 `'No file uploaded'`. -/
theorem upload_empty_title_falls_back_eval :
    (uploadHandler stEmpty 1 "f1" reqEmptyTitle).1
      = .created ⟨1, 1, "doc.pdf", none, "f1.pdf", "application/pdf", 2,
          some "OCR text would be extracted from f1.pdf in a real implementation.",
          false⟩
    ∧ (uploadHandler stEmpty 1 "f1" reqNoFile).1
      = .badRequest "No file uploaded" none := by
  exact ⟨by decide, by decide⟩

/-- Witness for C9: registering Alice's email a second time. -/
theorem register_duplicate_conflict_witness :
    registerHandler "jwtsecret" 0 stUsers "alice@mail.co" "secret2" "Bob"
      = (.conflict ⟨409, "Conflict", "User with this email already exists"⟩, stUsers)
    ∧ userAlice ∈ stUsers.users :=
  register_duplicate_conflict "jwtsecret" 0 stUsers "alice@mail.co" "secret2" "Bob"
    userAlice (by decide) (by decide)

/-! ### C2 -/

/-- Case-sensitive containment on a nullable column implies the
case-insensitive form. -/
theorem sqlLikeN_lower {o : Option String} {q : String}
    (h : sqlLikeN o q = true) :
    sqlLikeN (o.map lowerStr) (lowerStr q) = true := by
  cases o with
  | none => simp [sqlLikeN] at h
  | some s =>
    simp only [sqlLikeN, Option.map_some] at h ⊢
    exact strIncludes_lower h

/-- **C2 counterexample.** The claim says the search matches
case-insensitively; the code's WHERE clause uses Postgres `LIKE`, which is
case-sensitive.  Concretely: user 1 owns a document titled `"Invoice"`,
which the spec predicate (`specSearchMatch`, case-insensitive) selects for
the query `"invoice"`, yet the route returns the empty list. -/
theorem search_case_insensitive_refuted :
    searchDocuments "http://localhost:3000" stSearch payloadOne (some "invoice")
      = .ok []
    ∧ docInvoice ∈ stSearch.documents
    ∧ specSearchMatch payloadOne.id "invoice" docInvoice = true := by
  exact ⟨rfl, by decide, by decide⟩

/-- **C2 amended.** The search returns exactly the stored documents that are
owned by the requester or public **and** whose title, description, or OCR
text contains the query **case-sensitively** (SQL `LIKE`); and for every such
document the computed relevance tag names a field that contains the query
case-insensitively — it is never `'Unknown match'`. -/
theorem search_membership_and_relevance (baseUrl : String) (st : ServerState)
    (user : UserPayload) (qp : Option String) (sq : String)
    (hu : user.id ≠ 0) (hsq : sq = jsOr (qp.getD "") "") :
    ∃ rs, searchDocuments baseUrl st user qp = .ok rs
      ∧ (∀ r, r ∈ rs ↔ ∃ d, d ∈ st.documents
            ∧ searchWhere user.id sq d = true
            ∧ r = toSearchResult baseUrl sq d)
      ∧ (∀ d, d ∈ st.documents → searchWhere user.id sq d = true →
          relevanceOf sq d ≠ "Unknown match"
          ∧ ((relevanceOf sq d = "Title match"
                ∧ strIncludes (lowerStr d.title) (lowerStr sq) = true)
             ∨ (relevanceOf sq d = "Description match"
                ∧ sqlLikeN (d.description.map lowerStr) (lowerStr sq) = true)
             ∨ (relevanceOf sq d = "Content match (OCR)"
                ∧ sqlLikeN (d.ocrText.map lowerStr) (lowerStr sq) = true))) := by
  subst hsq
  have h0' : (user.id == 0) = false := beq_eq_false_iff_ne.mpr hu
  refine ⟨(st.documents.filter
      (searchWhere user.id (jsOr (qp.getD "") ""))).map
      (toSearchResult baseUrl (jsOr (qp.getD "") "")), ?_, ?_, ?_⟩
  · simp [searchDocuments, h0']
  · intro r
    simp only [List.mem_map, List.mem_filter]
    constructor
    · rintro ⟨d, ⟨hd, hw⟩, rfl⟩
      exact ⟨d, hd, hw, rfl⟩
    · rintro ⟨d, hd, hw, rfl⟩
      exact ⟨d, ⟨hd, hw⟩, rfl⟩
  · intro d _ hw
    simp only [searchWhere, Bool.and_eq_true, Bool.or_eq_true] at hw
    obtain ⟨-, hmatch⟩ := hw
    by_cases h1 : strIncludes (lowerStr d.title) (lowerStr (jsOr (qp.getD "") "")) = true
    · have htag : relevanceOf (jsOr (qp.getD "") "") d = "Title match" := by
        simp [relevanceOf, h1]
      exact ⟨by rw [htag]; decide, Or.inl ⟨htag, h1⟩⟩
    · have h1' : strIncludes (lowerStr d.title) (lowerStr (jsOr (qp.getD "") ""))
          = false := by simpa using h1
      by_cases h2 : sqlLikeN (d.description.map lowerStr)
          (lowerStr (jsOr (qp.getD "") "")) = true
      · have htag : relevanceOf (jsOr (qp.getD "") "") d = "Description match" := by
          simp [relevanceOf, h1', h2]
        exact ⟨by rw [htag]; decide, Or.inr (Or.inl ⟨htag, h2⟩)⟩
      · have h2' : sqlLikeN (d.description.map lowerStr)
            (lowerStr (jsOr (qp.getD "") "")) = false := by simpa using h2
        have h3 : sqlLikeN (d.ocrText.map lowerStr)
            (lowerStr (jsOr (qp.getD "") "")) = true := by
          rcases hmatch with (hcs | hcs) | hcs
          · exact absurd (strIncludes_lower hcs) h1
          · exact absurd (sqlLikeN_lower hcs) h2
          · exact sqlLikeN_lower hcs
        have htag : relevanceOf (jsOr (qp.getD "") "") d
            = "Content match (OCR)" := by
          simp [relevanceOf, h1', h2', h3]
        exact ⟨by rw [htag]; decide, Or.inr (Or.inr ⟨htag, h3⟩)⟩

/-- Witness for C2 (amended), at a store whose document matches the query
case-sensitively. -/
theorem search_membership_and_relevance_witness :
    ∃ rs, searchDocuments "http://localhost:3000" stSearchLower payloadOne
        (some "invoice") = .ok rs
      ∧ (∀ r, r ∈ rs ↔ ∃ d, d ∈ stSearchLower.documents
            ∧ searchWhere payloadOne.id "invoice" d = true
            ∧ r = toSearchResult "http://localhost:3000" "invoice" d)
      ∧ (∀ d, d ∈ stSearchLower.documents →
          searchWhere payloadOne.id "invoice" d = true →
          relevanceOf "invoice" d ≠ "Unknown match"
          ∧ ((relevanceOf "invoice" d = "Title match"
                ∧ strIncludes (lowerStr d.title) (lowerStr "invoice") = true)
             ∨ (relevanceOf "invoice" d = "Description match"
                ∧ sqlLikeN (d.description.map lowerStr) (lowerStr "invoice") = true)
             ∨ (relevanceOf "invoice" d = "Content match (OCR)"
                ∧ sqlLikeN (d.ocrText.map lowerStr) (lowerStr "invoice") = true))) :=
  search_membership_and_relevance "http://localhost:3000" stSearchLower payloadOne
    (some "invoice") "invoice" (by decide) (by decide)

/-! ### C10 -/

/-- Case analysis on the upload handler: it either reports a 400 without
touching the documents table, or inserts exactly one new document — and that
document is private (`isPublic: false` is hardcoded into the object the
handler validates and inserts). -/
theorem uploadHandler_shape (st : ServerState) (uid : Nat) (fileId : String)
    (req : UploadRequest) :
    (∃ msg det, (uploadHandler st uid fileId req).1 = .badRequest msg det
      ∧ ((uploadHandler st uid fileId req).2).documents = st.documents)
    ∨ (∃ dnew, (uploadHandler st uid fileId req).1 = .created dnew
      ∧ ((uploadHandler st uid fileId req).2).documents
          = st.documents ++ [dnew]
      ∧ dnew.isPublic = false) := by
  unfold uploadHandler
  cases hf : req.file with
  | none => exact Or.inl ⟨_, _, rfl, rfl⟩
  | some f =>
    simp only [documentUploadParse, saveFile]
    split
    · exact Or.inl ⟨_, _, rfl, rfl⟩
    · rename_i validated heq
      split at heq
      · injection heq with hv
        subst hv
        exact Or.inr ⟨_, rfl, rfl, rfl⟩
      · exact absurd heq (by simp)

/-- Every document the upload handler creates is private. -/
theorem uploadHandler_created_isPublic {st st' : ServerState} {uid : Nat}
    {fileId : String} {req : UploadRequest} {d : DocumentRec}
    (h : uploadHandler st uid fileId req = (.created d, st')) :
    d.isPublic = false := by
  rcases uploadHandler_shape st uid fileId req with ⟨msg, det, hb, -⟩ | ⟨dnew, hc, -, hp⟩
  · rw [h] at hb
    simp at hb
  · rw [h] at hc
    simp only [UploadResult.created.injEq] at hc
    rw [hc]
    exact hp

/-- The register handler never touches the documents table. -/
theorem registerHandler_documents (secret : String) (now : Nat)
    (st : ServerState) (e p n : String) :
    ((registerHandler secret now st e p n).2).documents = st.documents := by
  simp only [registerHandler]
  (repeat' split) <;> rfl

/-- Every document in the post-upload store either was already there or is
the freshly inserted private one. -/
theorem uploadHandler_documents_mem {st : ServerState} {uid : Nat}
    {fileId : String} {req : UploadRequest} :
    ∀ d ∈ ((uploadHandler st uid fileId req).2).documents,
      d ∈ st.documents ∨ d.isPublic = false := by
  intro d hd
  rcases uploadHandler_shape st uid fileId req with ⟨msg, det, -, hdocs⟩ | ⟨dnew, -, hdocs, hp⟩
  · rw [hdocs] at hd
    exact Or.inl hd
  · rw [hdocs] at hd
    rcases List.mem_append.mp hd with h | h
    · exact Or.inl h
    · exact Or.inr (List.mem_singleton.mp h ▸ hp)

/-- One API call preserves the all-documents-private invariant. -/
theorem applyOp_preserves_private (secret : String) (now : Nat)
    (st : ServerState) (op : ApiOp)
    (hpriv : ∀ x ∈ st.documents, x.isPublic = false) :
    ∀ x ∈ (applyOp secret now st op).documents, x.isPublic = false := by
  intro x hx
  cases op with
  | register e p n =>
    simp only [applyOp] at hx
    rw [registerHandler_documents] at hx
    exact hpriv x hx
  | upload uid fileId req =>
    simp only [applyOp] at hx
    rcases uploadHandler_documents_mem x hx with h | h
    · exact hpriv x h
    · exact h
  | login e p => exact hpriv x hx
  | getProfile uid => exact hpriv x hx
  | listDocuments uid => exact hpriv x hx
  | getDocument uid idParam => exact hpriv x hx
  | search uid q => exact hpriv x hx
  | adminListDocuments uid => exact hpriv x hx

/-- Any trace of API calls preserves the all-documents-private invariant. -/
theorem foldl_preserves_private (secret : String) (now : Nat)
    (ops : List ApiOp) :
    ∀ st : ServerState, (∀ x ∈ st.documents, x.isPublic = false) →
      ∀ x ∈ (List.foldl (applyOp secret now) st ops).documents,
        x.isPublic = false := by
  induction ops with
  | nil => intro st h; simpa using h
  | cons op rest ih =>
    intro st h
    simp only [List.foldl_cons]
    exact ih _ (applyOp_preserves_private secret now st op h)

/-- **C10.** Every document the upload operation creates has
`isPublic = false` no matter what the client supplied, and no operation of
the API surface ever stores a public document: a store in which every
document is private stays that way under any sequence of API calls. -/
theorem documents_remain_private (secret : String) (now : Nat)
    (ops : List ApiOp) (st st2 st2' : ServerState) (uid : Nat)
    (fileId : String) (req : UploadRequest) (d : DocumentRec)
    (hpriv : ∀ x ∈ st.documents, x.isPublic = false)
    (hup : uploadHandler st2 uid fileId req = (.created d, st2')) :
    d.isPublic = false
    ∧ ∀ x ∈ (List.foldl (applyOp secret now) st ops).documents,
        x.isPublic = false :=
  ⟨uploadHandler_created_isPublic hup,
   foldl_preserves_private secret now ops st hpriv⟩

/-- Witness for C10: an upload whose client asked `isPublic: true` still
creates a private document, and a concrete trace keeps the store private. -/
theorem documents_remain_private_witness :
    docVacation.isPublic = false
    ∧ ∀ x ∈ (List.foldl (applyOp "jwtsecret" 0) stEmpty opsSample).documents,
        x.isPublic = false :=
  documents_remain_private "jwtsecret" 0 opsSample stEmpty stEmpty stAfterVacation
    1 "f9" reqPublicTrue docVacation (by simp [stEmpty]) (by decide)

end Arsip
